import Mathlib

/-!
Verification development for the `keyboard_wrapped` repository.

The definitions below are a shallow embedding of the Python sources:
`keyboard_logger.py` (the `WrappedLogger` accumulator), `scripts/word_checker.py`
(`WordChecker`), `scripts/mock_keystrokes.py` (the mock injector),
`scripts/widget_refresh.py` (sample-mode display adjustments) and the durable
summary store.  Machine state (the mutable `summary` dict, the logger's
instance attributes, the file system) is passed explicitly; Python dicts are
insertion-ordered association lists; Python numbers are `Int`/`Rat`.
-/

namespace KeyboardWrapped

/-! ### Python string and number semantics -/

/-- Python `str.lower()` restricted to the characters the logger sees. -/
def pyLower (s : String) : String := ⟨s.data.map Char.toLower⟩

/-- Python `str.strip(chars)`: remove the characters of the set `chars` from
both ends of the string (character-set semantics, not substring removal). -/
def pyStripChars (chars : List Char) (s : String) : String :=
  ⟨((s.data.dropWhile chars.contains).reverse.dropWhile chars.contains).reverse⟩

/-- Python `str.strip()` (no argument): strip ASCII whitespace at both ends. -/
def pyStripWs (s : String) : String :=
  pyStripChars [' ', '\t', '\n', '\r', '\x0b', '\x0c'] s

/-- Python 3 `round` to an integer: round-half-to-even. -/
def pyRoundInt (q : ℚ) : ℤ :=
  let f := ⌊q⌋
  let frac := q - f
  if frac < 1/2 then f
  else if 1/2 < frac then f + 1
  else if f % 2 = 0 then f else f + 1

/-- Python 3 `round(q, ndigits)` where `p = 10 ^ ndigits`. -/
def pyRoundScaled (q : ℚ) (p : ℕ) : ℚ := (pyRoundInt (q * p) : ℚ) / p

/-- Truthiness of a nullable Python string (`None` and `""` are falsy). -/
def pyTruthyStr : Option String → Bool
  | none => false
  | some s => s ≠ ""

/-! ### Python dicts as insertion-ordered association lists -/

/-- Dict lookup `d.get(k)`. -/
def kalGet {κ α : Type} [DecidableEq κ] : List (κ × α) → κ → Option α
  | [], _ => none
  | (k', v) :: rest, k => if k' = k then some v else kalGet rest k

/-- Dict lookup with default, `d.get(k, dflt)`. -/
def kalGetD {κ α : Type} [DecidableEq κ] (l : List (κ × α)) (k : κ) (d : α) : α :=
  (kalGet l k).getD d

/-- Dict assignment `d[k] = v`: update in place, or append a new key at the
end (Python dicts preserve insertion order). -/
def kalSet {κ α : Type} [DecidableEq κ] : List (κ × α) → κ → α → List (κ × α)
  | [], k, v => [(k, v)]
  | (k', v') :: rest, k, v =>
      if k' = k then (k, v) :: rest else (k', v') :: kalSet rest k v

/-- Python `d.setdefault(k, v)`: insert only when the key is absent. -/
def kalSetD {κ α : Type} [DecidableEq κ] (l : List (κ × α)) (k : κ) (v : α) :
    List (κ × α) :=
  if (kalGet l k).isSome then l else l ++ [(k, v)]

/-- Python `d.pop(k, None)`: the removed value and the remaining dict. -/
def kalPop {κ α : Type} [DecidableEq κ] : List (κ × α) → κ → Option (α × List (κ × α))
  | [], _ => none
  | (k', v) :: rest, k =>
      if k' = k then some (v, rest)
      else match kalPop rest k with
        | none => none
        | some (w, rest') => some (w, (k', v) :: rest')

/-- String-keyed dict, the shape of every mapping in the summary document. -/
abbrev AList (α : Type) : Type := List (String × α)

/-- Increment-with-default, the `d.setdefault(k, 0); d[k] += 1` idiom. -/
def kalBump (l : AList ℕ) (k : String) : AList ℕ :=
  kalSet l k (kalGetD l k 0 + 1)

/-! ### `scripts/word_checker.py` -/

/-- The curated English fallback lexicon `DEFAULT_WORD_SET`. -/
def DEFAULT_WORD_SET : List String :=
  ["the", "be", "to", "of", "and", "a", "in", "that", "have", "i", "it",
   "for", "not", "on", "with", "he", "as", "you", "do", "at", "this", "but",
   "his", "by", "from", "they", "we", "say", "her", "she", "or", "an",
   "will", "my", "one", "all", "would", "there", "their", "what", "so",
   "up", "out", "if", "about", "who", "get", "which", "go", "me", "when",
   "make", "can", "like", "time", "no", "just", "him", "know", "take",
   "people", "into", "year", "your", "good", "some", "could", "them",
   "see", "other", "than", "then", "now", "look", "only", "come", "its",
   "over", "think", "also", "back", "after", "use", "two", "how", "our",
   "work", "first", "well", "way", "even", "new", "want", "because",
   "any", "these", "give", "day", "most", "us", "keyboard", "accuracy",
   "typing", "word", "score", "progress", "monitor", "python", "insight",
   "log", "health", "craft", "apple", "logger", "balance", "rhythm",
   "tempo", "story", "error", "track", "flow", "keys"]

/-- The Hebrew fallback lexicon `HEBREW_FALLBACK`. -/
def HEBREW_FALLBACK : List String :=
  ["אני", "אתה", "את", "אנחנו", "הוא", "היא", "מה", "גם", "לא", "כן",
   "כאן", "שם", "בוקר", "לילה", "עבודה", "מקלדת", "תכנית", "מילה",
   "זרם", "אור", "דרך", "טקסט", "עוגה", "אהבה", "שיר", "בוא", "לך",
   "היום", "מחר", "גיע", "כתיבה", "קשר", "איפה", "מי", "למה", "עם", "עין"]

/-- Embeds `LANGUAGE_FALLBACK_WORDS` lookup. -/
def languageFallbackWords (lang : String) : List String :=
  if lang = "en" then DEFAULT_WORD_SET
  else if lang = "he" then HEBREW_FALLBACK
  else []

/-- The optional external frequency oracle (`wordfreq.zipf_frequency`); `none`
models the module being absent, and a `none` result models the `ValueError`
path of `WordChecker._zipf_frequency`. -/
abbrev ZipfOracle : Type := Option (String → String → Option ℚ)

/-- Embeds `WordChecker._zipf_frequency`. -/
def zipfFrequency (oracle : ZipfOracle) (word lang : String) : Option ℚ :=
  match oracle with
  | none => none
  | some f => f word lang

/-- A constructed `WordChecker` instance. -/
structure WordChecker where
  threshold : ℚ
  min_length : ℕ
  extra_words : List String
  languages : List String
  fallback : List String

/-- Embeds `WordChecker.__init__`: lower-case the extra words and languages and build
the union fallback set (`fallback_words ∪ extra ∪ per-language lexicons`). -/
def WordChecker.make (threshold : ℚ) (min_length : ℕ) (extra_words : List String)
    (fallback_words : List String := []) (languages : List String := ["en"]) :
    WordChecker :=
  let extra := extra_words.map pyLower
  let langs := languages.map pyLower
  { threshold := threshold
    min_length := min_length
    extra_words := extra
    languages := langs
    fallback := fallback_words ++ extra ++ langs.flatMap languageFallbackWords }

/-- Embeds `WordChecker.is_correct`. -/
def WordChecker.is_correct (c : WordChecker) (oracle : ZipfOracle) (word : String) :
    Bool :=
  let normalized := pyStripWs (pyLower word)
  if normalized.length < c.min_length then false
  else if c.fallback.contains normalized then true
  else if c.languages.any (fun lang =>
      match zipfFrequency oracle normalized lang with
      | some freq => c.threshold ≤ freq
      | none => false) then true
  else c.fallback.contains normalized

/-! ### Word-accuracy scoring -/

/-- The `word_accuracy` record of the summary document. -/
structure WordAccuracy where
  score : ℚ
  correct : ℕ
  incorrect : ℕ

/-- The zero-value `{"score": 0, "correct": 0, "incorrect": 0}`. -/
def WordAccuracy.init : WordAccuracy := ⟨0, 0, 0⟩

/-- The `word_accuracy` slice of the application config (`correct_points`,
`incorrect_points`, `target_score`), with the hard-coded defaults of
`WrappedLogger.__init__`. -/
structure AccuracyCfg where
  correct_points : ℚ := 1
  incorrect_points : ℚ := -2
  target_score : ℚ := 120

/-- Embeds `WrappedLogger._score_word` restricted to the `word_accuracy` record:
tally the verdict, add the signed points and clamp into `[0, target_score]`.
Returns the updated record and the verdict. -/
def scoreWordUpdate (cfg : AccuracyCfg) (checker : WordChecker) (oracle : ZipfOracle)
    (acc : WordAccuracy) (word : String) : WordAccuracy × Bool :=
  let is_correct := checker.is_correct oracle word
  let points := if is_correct then cfg.correct_points else cfg.incorrect_points
  let acc := if is_correct then { acc with correct := acc.correct + 1 }
             else { acc with incorrect := acc.incorrect + 1 }
  let score := acc.score + points
  let score := max 0 (min score cfg.target_score)
  ({ acc with score := score }, is_correct)

/-- Python `str.isalpha()` on a key name (nonempty, all alphabetic). -/
def pyIsAlphaStr (s : String) : Bool := s ≠ "" && s.data.all Char.isAlpha

/-- Embeds `scripts/mock_keystrokes.py::_score_mock_word` restricted to the
`word_accuracy` record: join the alphabetic keys into one word, judge it, tally
the verdict and add the signed points — without any clamp. -/
def scoreMockWordUpdate (cfg : AccuracyCfg) (checker : WordChecker)
    (oracle : ZipfOracle) (acc : WordAccuracy) (keys : List String) : WordAccuracy :=
  let word := String.join ((keys.filter pyIsAlphaStr).map pyLower)
  if word = "" then acc
  else
    let is_correct := checker.is_correct oracle word
    let acc := if is_correct then { acc with correct := acc.correct + 1 }
               else { acc with incorrect := acc.incorrect + 1 }
    let points := if is_correct then cfg.correct_points else cfg.incorrect_points
    { acc with score := acc.score + points }

/-- The checker built with every config value at its hard-coded default
(`threshold 2.5`, `min_word_length 1`, no extra words). -/
def defaultChecker : WordChecker := WordChecker.make (5/2) 1 []

/-! ### Interval running statistics (`_record_interval`) -/

/-- A `{count, total_ms, max_ms, min_ms}` running accumulator. -/
structure IntervalStats where
  count : ℕ
  total_ms : ℤ
  max_ms : ℤ
  min_ms : Option ℤ
  deriving DecidableEq

/-- The zero-value `{"count": 0, "total_ms": 0, "max_ms": 0, "min_ms": None}`. -/
def IntervalStats.init : IntervalStats := ⟨0, 0, 0, none⟩

/-- Embeds `WrappedLogger._record_interval`: ignore non-positive intervals, otherwise
fold the interval into the running count/total/max/min. -/
def recordInterval (st : IntervalStats) (interval_ms : ℤ) : IntervalStats :=
  if interval_ms ≤ 0 then st
  else
    { count := st.count + 1
      total_ms := st.total_ms + interval_ms
      max_ms := max st.max_ms interval_ms
      min_ms :=
        match st.min_ms with
        | none => some interval_ms
        | some m => if interval_ms < m then some interval_ms else some m }

/-- Embeds `WrappedLogger._record_duration` on one per-key accumulator (the update is
skipped entirely when the duration is `None`). -/
def recordDurationStats (st : IntervalStats) (duration_ms : ℤ) : IntervalStats :=
  { count := st.count + 1
    total_ms := st.total_ms + duration_ms
    max_ms := max st.max_ms duration_ms
    min_ms :=
      match st.min_ms with
      | none => some duration_ms
      | some m => if duration_ms < m then some duration_ms else some m }

/-! ### The summary document (`WrappedLogger`'s in-memory aggregate) -/

/-- A wall-clock instant: the UTC calendar-date label (`timestamp[:10]`) and
the absolute time in milliseconds. -/
structure Ts where
  day : String
  ms : ℤ

/-- The `{count, total_ms, fastest_ms, slowest_ms}` accumulator of
`word_durations`. -/
structure WordDurationStats where
  count : ℕ
  total_ms : ℤ
  fastest_ms : Option ℤ
  slowest_ms : ℤ

/-- One `word_shapes` sample: the per-letter dwell and interval timeseries. -/
structure WordShape where
  durations : List ℤ
  intervals : List ℤ

/-- The derived `typing_profile` snapshot. -/
structure TypingProfile where
  avg_interval : ℚ
  avg_press_length : ℚ
  wpm : ℚ
  avg_word_shape_samples : ℕ
  long_pause_rate : ℚ

/-- The zero-value typing profile of the fresh summary. -/
def TypingProfile.init : TypingProfile := ⟨0, 0, 0, 0, 0⟩

/-- The behaviour flags attached to a key event. -/
structure Behaviors where
  rage_click : Bool := false
  long_pause : Bool := false

/-- One finalized key event, as written to the raw event log. -/
structure KeyEvent where
  timestamp : Ts
  key : String
  category : String
  interval_ms : ℤ
  behaviors : Behaviors
  duration_ms : Option ℤ

/-- The summary document, the single mutable aggregate of the logger. -/
structure Summary where
  total_events : ℕ
  letters : ℕ
  actions : ℕ
  words : ℕ
  rage_clicks : ℕ
  long_pauses : ℕ
  first_event : Option Ts
  last_event : Option Ts
  key_counts : AList ℕ
  daily_activity : AList ℕ
  daily_rage : AList ℕ
  daily_word_counts : AList (AList ℕ)
  key_pairs : AList (AList ℕ)
  key_press_lengths : AList IntervalStats
  interval_stats : IntervalStats
  word_durations : AList WordDurationStats
  word_counts : AList ℕ
  word_pairs : AList (AList ℕ)
  word_shapes : AList (List WordShape)
  typing_profile : TypingProfile
  word_accuracy : WordAccuracy

/-- The freshly-initialized summary of `_load_existing_summary` (file absent). -/
def Summary.init : Summary where
  total_events := 0
  letters := 0
  actions := 0
  words := 0
  rage_clicks := 0
  long_pauses := 0
  first_event := none
  last_event := none
  key_counts := []
  daily_activity := []
  daily_rage := []
  daily_word_counts := []
  key_pairs := []
  key_press_lengths := []
  interval_stats := IntervalStats.init
  word_durations := []
  word_counts := []
  word_pairs := []
  word_shapes := []
  typing_profile := TypingProfile.init
  word_accuracy := WordAccuracy.init

/-- Embeds `WrappedLogger._refresh_typing_profile`: recompute the derived snapshot
from the raw accumulators (`total/count` on demand, one-decimal rounding). -/
def refreshTypingProfile (s : Summary) : Summary :=
  let count := s.interval_stats.count
  let avg_interval : ℚ := if count ≠ 0 then (s.interval_stats.total_ms : ℚ) / count else 0
  let total_press_ms : ℤ := (s.key_press_lengths.map (fun e => e.2.total_ms)).sum
  let total_press_count : ℕ := (s.key_press_lengths.map (fun e => e.2.count)).sum
  let avg_press_length : ℚ :=
    if total_press_count ≠ 0 then (total_press_ms : ℚ) / total_press_count else 0
  let wpm : ℚ := if avg_interval ≠ 0 then 60000 / avg_interval else 0
  let shapes_count : ℕ := (s.word_shapes.map (fun e => e.2.length)).sum
  let long_pause_rate : ℚ := (s.long_pauses : ℚ) / (s.total_events : ℚ)
  { s with typing_profile :=
      { avg_interval := pyRoundScaled avg_interval 10
        avg_press_length := pyRoundScaled avg_press_length 10
        wpm := pyRoundScaled wpm 10
        avg_word_shape_samples := shapes_count
        long_pause_rate := pyRoundScaled long_pause_rate 1000 } }

/-- Embeds `WrappedLogger._record_duration` on the summary: no-op on `None`,
otherwise fold into the per-key accumulator. -/
def recordDuration (s : Summary) (key : String) : Option ℤ → Summary
  | none => s
  | some d =>
      let key_stats := kalGetD s.key_press_lengths key IntervalStats.init
      { s with key_press_lengths :=
          kalSet s.key_press_lengths key (recordDurationStats key_stats d) }

/-! ### The logger state machine (`keyboard_logger.py::WrappedLogger`) -/

/-- The raw value `pynput` hands to `on_press`/`on_release`: a `KeyCode` with
a printable character, or a named special key `Key.<name>`. -/
inductive KeyInput where
  | charKey (c : Char)
  | named (name : String)
  deriving DecidableEq

/-- The character set Python's `str.strip("Key.")` removes from both ends. -/
def KEY_STRIP_SET : List Char := ['K', 'e', 'y', '.']

/-- Embeds `WrappedLogger._normalize_key`: the character itself for a `KeyCode`, else
`str(key).strip("Key.").lower()` — note `strip` removes the characters
`K`,`e`,`y`,`.` from both ends of `"Key.<name>"`, not the `"Key."` prefix. -/
def normalizeKey : KeyInput → String
  | .charKey c => ⟨[c]⟩
  | .named n => pyLower (pyStripChars KEY_STRIP_SET ("Key." ++ n))

/-- Embeds `WrappedLogger._categorize`: the event category and the letter flag. -/
def categorize : KeyInput → String × Bool
  | .charKey c => ("letter", c.isAlpha)
  | .named _ => ("action", false)

/-- A not-yet-released press held in `pending_keys`. -/
structure PendingRecord where
  event : KeyEvent
  press_time : ℤ

/-- One entry of `current_word_letter_events`. -/
structure LetterEvent where
  key : String
  duration_ms : ℤ
  interval_ms : ℤ

/-- The mutable instance attributes of a `WrappedLogger`, plus the raw event
log the instance appends to. -/
structure LoggerState where
  last_press_time : Option ℤ
  last_key : Option String
  last_logged_key : Option String
  rage_streak : ℕ
  word_buffer : List String
  previous_word : Option String
  current_day_label : Option String
  word_start : Option ℤ
  word_last : Option ℤ
  pending_keys : List (KeyInput × PendingRecord)
  current_word_letter_events : List LetterEvent
  summary : Summary
  log : List KeyEvent

/-- The fresh logger over an absent summary file. -/
def LoggerState.init : LoggerState where
  last_press_time := none
  last_key := none
  last_logged_key := none
  rage_streak := 0
  word_buffer := []
  previous_word := none
  current_day_label := none
  word_start := none
  word_last := none
  pending_keys := []
  current_word_letter_events := []
  summary := Summary.init
  log := []

/-- The logger's configuration: the rage threshold and the word-accuracy
config, all at the hard-coded defaults of `WrappedLogger.__init__`. -/
structure LoggerCfg where
  min_rage_interval_ms : ℤ := 450
  accuracy : AccuracyCfg := {}
  checker : WordChecker := defaultChecker
  oracle : ZipfOracle := none

/-- Embeds `WrappedLogger._record_transition`: bump `key_pairs[prev][current]` when a
previous finalized key exists, and advance the pointer unconditionally. -/
def recordTransition (st : LoggerState) (key : String) : LoggerState :=
  let st :=
    if pyTruthyStr st.last_logged_key then
      let prev := st.last_logged_key.getD ""
      let pairs := kalGetD st.summary.key_pairs prev []
      let kp := kalSet st.summary.key_pairs prev (kalBump pairs key)
      { st with summary := { st.summary with key_pairs := kp } }
    else st
  { st with last_logged_key := some key }

/-- Embeds `WrappedLogger._score_word` at the state level. -/
def scoreWord (cfg : LoggerCfg) (st : LoggerState) (word : String) : LoggerState :=
  let (acc, _) := scoreWordUpdate cfg.accuracy cfg.checker cfg.oracle
    st.summary.word_accuracy word
  { st with summary := { st.summary with word_accuracy := acc } }

/-- Embeds `WrappedLogger._record_word_shape`: append the per-letter timing sample
when any letter events were collected for the word. -/
def recordWordShape (st : LoggerState) (word : String) : LoggerState :=
  if st.current_word_letter_events.isEmpty then st
  else
    let shapes := kalGetD st.summary.word_shapes word []
    let durs := st.current_word_letter_events.map (fun e => e.duration_ms)
    let ivs := st.current_word_letter_events.map (fun e => e.interval_ms)
    let sample : WordShape := { durations := durs, intervals := ivs }
    let ws := kalSet st.summary.word_shapes word (shapes ++ [sample])
    { st with summary := { st.summary with word_shapes := ws } }

/-- The body of `_finish_word`'s `if self.word_buffer:` branch: record the
completed word's count, bigram transition, per-day count, optional accuracy
score, duration statistics and shape sample. -/
def finishBufferedWord (cfg : LoggerCfg) (st : LoggerState) (label : Option String)
    (score_word : Bool) : LoggerState :=
  let word := String.join st.word_buffer
  let st :=
    if word ≠ "" then
      let wc := kalBump st.summary.word_counts word
      let s1 := { st.summary with words := st.summary.words + 1, word_counts := wc }
      let st := { st with summary := s1 }
      if pyTruthyStr st.previous_word then
        let prev := st.previous_word.getD ""
        let pairs := kalGetD st.summary.word_pairs prev []
        let wp := kalSet st.summary.word_pairs prev (kalBump pairs word)
        { st with summary := { st.summary with word_pairs := wp } }
      else st
    else st
  let st := { st with previous_word := some word }
  let st :=
    if pyTruthyStr label then
      let lab := label.getD ""
      let day_words := kalGetD st.summary.daily_word_counts lab []
      let dwc := kalSet st.summary.daily_word_counts lab (kalBump day_words word)
      { st with summary := { st.summary with daily_word_counts := dwc } }
    else st
  let st := if score_word then scoreWord cfg st word else st
  match st.word_start, st.word_last with
  | some ws, some wl =>
      let duration := wl - ws
      let stats := kalGetD st.summary.word_durations word ⟨0, 0, none, 0⟩
      let fastest :=
        match stats.fastest_ms with
        | none => some duration
        | some f => if duration < f then some duration else some f
      let stats : WordDurationStats :=
        { count := stats.count + 1
          total_ms := stats.total_ms + duration
          slowest_ms := max stats.slowest_ms duration
          fastest_ms := fastest }
      let wd := kalSet st.summary.word_durations word stats
      let st := { st with summary := { st.summary with word_durations := wd } }
      recordWordShape st word
  | _, _ => st

/-- Embeds `WrappedLogger._finish_word`. -/
def finishWord (cfg : LoggerCfg) (st : LoggerState) (day_label : Option String)
    (reset_sequence : Bool := false) (score_word : Bool := true) : LoggerState :=
  let label := if pyTruthyStr day_label then day_label else st.current_day_label
  let label :=
    if label = none then
      match st.summary.last_event with
      | some ts => some ts.day
      | none => none
    else label
  let st :=
    if st.word_buffer ≠ [] then finishBufferedWord cfg st label score_word
    else st
  let st := { st with word_buffer := [], word_start := none, word_last := none,
                      current_word_letter_events := [] }
  if reset_sequence then
    { st with previous_word := none, current_word_letter_events := [] }
  else st

/-- Embeds `WrappedLogger._update_summary` (the in-memory mutation; the incremental
persist to disk is modelled separately by the durable-store embedding). -/
def updateSummary (st : LoggerState) (event : KeyEvent) : LoggerState :=
  let s := st.summary
  let s := { s with total_events := s.total_events + 1,
                    key_counts := kalBump s.key_counts event.key }
  let st := recordTransition { st with summary := s } event.key
  let s := st.summary
  let s := { s with interval_stats := recordInterval s.interval_stats event.interval_ms }
  let s := recordDuration s event.key event.duration_ms
  let s :=
    if event.category = "letter" then { s with letters := s.letters + 1 }
    else { s with actions := s.actions + 1 }
  let date_label := event.timestamp.day
  let s :=
    if event.behaviors.rage_click then
      { s with rage_clicks := s.rage_clicks + 1,
               daily_rage := kalBump s.daily_rage date_label }
    else s
  let s :=
    if event.behaviors.long_pause then { s with long_pauses := s.long_pauses + 1 }
    else s
  let s := { s with daily_activity := kalBump s.daily_activity date_label }
  let s := { s with last_event := some event.timestamp }
  let s :=
    if s.first_event.isNone then { s with first_event := some event.timestamp }
    else s
  { st with summary := refreshTypingProfile s, current_day_label := some date_label }

/-- Embeds `WrappedLogger.on_press` at the instant `now`. -/
def onPress (cfg : LoggerCfg) (st : LoggerState) (key : KeyInput) (now : Ts) :
    LoggerState :=
  let interval_ms : ℤ :=
    match st.last_press_time with
    | some t => now.ms - t
    | none => 0
  let normalized := normalizeKey key
  let (category, is_letter) := categorize key
  let rage_streak :=
    if st.last_key = some normalized ∧ interval_ms ≠ 0 ∧
        interval_ms < cfg.min_rage_interval_ms then
      st.rage_streak + 1
    else 1
  let st := { st with rage_streak := rage_streak }
  let behaviors : Behaviors :=
    { rage_click := rage_streak ≥ 4, long_pause := interval_ms > 2000 }
  let st :=
    if interval_ms > 2000 then finishWord cfg st (some now.day) true false
    else st
  let st :=
    if is_letter then
      { st with word_buffer := st.word_buffer ++ [pyLower normalized],
                word_start := if st.word_start = none then some now.ms else st.word_start,
                word_last := some now.ms }
    else if normalized = "space" ∨ normalized = "enter" ∨ normalized = "tab" then
      finishWord cfg st (some now.day)
    else st
  let event : KeyEvent :=
    { timestamp := now, key := normalized, category := category,
      interval_ms := interval_ms, behaviors := behaviors, duration_ms := none }
  { st with pending_keys := kalSet st.pending_keys key ⟨event, now.ms⟩,
            last_press_time := some now.ms,
            last_key := some normalized }

/-- Embeds `WrappedLogger.on_release` at the instant `now`: finalize the matching
pending press (if any), append it to the raw event log and fold it into the
summary. -/
def onRelease (st : LoggerState) (key : KeyInput) (now : Ts) : LoggerState :=
  match kalPop st.pending_keys key with
  | none => st
  | some (record, rest) =>
      let st := { st with pending_keys := rest }
      let duration := now.ms - record.press_time
      let event := { record.event with duration_ms := some duration }
      let st :=
        if event.category = "letter" then
          { st with current_word_letter_events :=
              st.current_word_letter_events ++
                [⟨event.key, duration, event.interval_ms⟩] }
        else st
      let st := { st with log := st.log ++ [event] }
      updateSummary st event

/-- Embeds `WrappedLogger._flush_pending_keys`: release every still-pending press, in
insertion order, at the instant `now`. -/
def flushPendingKeys (st : LoggerState) (now : Ts) : LoggerState :=
  (st.pending_keys.map (fun e => e.1)).foldl (fun s k => onRelease s k now) st

/-- Embeds `WrappedLogger.stop` (the in-memory part: flush pending presses, finalize
the in-progress word without scoring, refresh the profile). -/
def stop (cfg : LoggerCfg) (st : LoggerState) (now : Ts) : LoggerState :=
  let st := flushPendingKeys st now
  let st := finishWord cfg st st.current_day_label false false
  { st with summary := refreshTypingProfile st.summary }

/-! ### The durable summary store: file-system level (`_persist_summary`, `stop`) -/

/-- Remove a key from a dict (`del d[k]` / the effect of `Path.replace` on the
source path). -/
def kalRemove {κ α : Type} [DecidableEq κ] (l : List (κ × α)) (k : κ) : List (κ × α) :=
  match kalPop l k with
  | none => l
  | some (_, rest) => rest

/-- A flat file system: path → full current content. -/
abbrev FileSystem : Type := AList String

/-- The primitive file operations a save routine issues. -/
inductive FsOp where
  | truncate (p : String)
  | writeAll (p : String) (content : String)
  | fsync (p : String)
  | rename (src dst : String)

/-- The effect of one completed operation. `truncate` is `open(p, "w")`,
`writeAll` the buffered dump plus flush, `fsync` orders nothing further at
this abstraction, `rename` is the atomic `Path.replace`. -/
def applyOp (fs : FileSystem) : FsOp → FileSystem
  | .truncate p => kalSet fs p ""
  | .writeAll p c => kalSet fs p c
  | .fsync _ => fs
  | .rename src dst =>
      match kalGet fs src with
      | some c => kalRemove (kalSet fs dst c) src
      | none => fs

/-- Run a whole operation sequence to completion. -/
def runOps (fs : FileSystem) (ops : List FsOp) : FileSystem := ops.foldl applyOp fs

/-- Embeds `Path.with_suffix(suffix + ".tmp")` on the summary path. -/
def tmpPath (dst : String) : String := dst ++ ".tmp"

/-- The operation trace of `WrappedLogger._persist_summary`: open the
temporary sibling for writing, dump and flush, fsync, then atomically rename
over the destination. -/
def persistSummaryOps (dst content : String) : List FsOp :=
  [.truncate (tmpPath dst), .writeAll (tmpPath dst) content,
   .fsync (tmpPath dst), .rename (tmpPath dst) dst]

/-- The operation trace of the final save in `WrappedLogger.stop`: open the
destination itself with mode `"w"` (truncating it) and dump into it. -/
def stopSaveOps (dst content : String) : List FsOp :=
  [.truncate dst, .writeAll dst content]

/-- The file systems observable if the process dies somewhere inside an
operation sequence: before any remaining op, after a completed prefix, or —
for `writeAll` — with only a prefix of the content written. -/
inductive CrashState : FileSystem → List FsOp → FileSystem → Prop where
  | here (fs : FileSystem) (ops : List FsOp) : CrashState fs ops fs
  | step {fs : FileSystem} (op : FsOp) {ops : List FsOp} {fs' : FileSystem} :
      CrashState (applyOp fs op) ops fs' → CrashState fs (op :: ops) fs'
  | midWrite (fs : FileSystem) (p c : String) (ops : List FsOp) (k : ℕ)
      (h : k ≤ c.data.length) :
      CrashState fs (.writeAll p c :: ops) (kalSet fs p ⟨c.data.take k⟩)

/-! ### The durable summary store: document level (`load`/`_ensure_schema`) -/

/-- A JSON value, the wire form of the summary document. -/
inductive Json where
  | null
  | bool (b : Bool)
  | num (q : ℚ)
  | str (s : String)
  | arr (elems : List Json)
  | obj (fields : List (String × Json))

/-- The zero-value `interval_stats` object, in wire form. -/
def defaultIntervalStatsJson : Json :=
  .obj [("count", .num 0), ("total_ms", .num 0), ("max_ms", .num 0), ("min_ms", .null)]

/-- The zero-value `typing_profile` object, in wire form. -/
def defaultTypingProfileJson : Json :=
  .obj [("avg_interval", .num 0), ("avg_press_length", .num 0), ("wpm", .num 0),
        ("avg_word_shape_samples", .num 0), ("long_pause_rate", .num 0)]

/-- The zero-value `word_accuracy` object, in wire form. -/
def defaultWordAccuracyJson : Json :=
  .obj [("score", .num 0), ("correct", .num 0), ("incorrect", .num 0)]

/-- The full default document `WrappedLogger._load_existing_summary` builds
when the file is absent or holds corrupt JSON (`meta` is
`_capture_device_meta()`). -/
def loggerDefaultSummaryJson (meta : Json) : AList Json :=
  [("total_events", .num 0), ("letters", .num 0), ("actions", .num 0),
   ("words", .num 0), ("rage_clicks", .num 0), ("long_pauses", .num 0),
   ("first_event", .null), ("last_event", .null), ("key_counts", .obj []),
   ("daily_activity", .obj []), ("daily_rage", .obj []),
   ("daily_word_counts", .obj []), ("key_pairs", .obj []),
   ("key_press_lengths", .obj []), ("interval_stats", defaultIntervalStatsJson),
   ("word_durations", .obj []), ("device_meta", meta), ("word_counts", .obj []),
   ("word_pairs", .obj []), ("word_shapes", .obj []),
   ("typing_profile", defaultTypingProfileJson),
   ("word_accuracy", defaultWordAccuracyJson)]

/-- What the store finds at the summary path: no file, a file whose JSON fails
to decode, or a decoded document. -/
inductive StoredFile where
  | absent
  | corrupt
  | valid (doc : AList Json)

/-- Embeds `WrappedLogger._load_existing_summary`: the decoded document, or the full
default document when the file is absent or `json.load` raises
`JSONDecodeError`. -/
def loadExistingSummary (meta : Json) : StoredFile → AList Json
  | .absent => loggerDefaultSummaryJson meta
  | .corrupt => loggerDefaultSummaryJson meta
  | .valid doc => doc

/-- The `(key, default)` pairs of `WrappedLogger._ensure_schema`, in source
order. -/
def ensureSchemaDefaults : AList Json :=
  [("daily_rage", .obj []), ("daily_word_counts", .obj []), ("key_pairs", .obj []),
   ("key_press_lengths", .obj []), ("interval_stats", defaultIntervalStatsJson),
   ("word_durations", .obj []), ("word_shapes", .obj []),
   ("typing_profile", defaultTypingProfileJson),
   ("word_accuracy", defaultWordAccuracyJson)]

/-- Embeds `WrappedLogger._ensure_schema`: `setdefault` each schema key, then
overwrite `device_meta` with the freshly captured metadata. -/
def ensureSchema (meta : Json) (doc : AList Json) : AList Json :=
  let doc := ensureSchemaDefaults.foldl (fun d kv => kalSetD d kv.1 kv.2) doc
  kalSet doc "device_meta" meta

/-- The whole load path of `WrappedLogger.__init__`:
`_load_existing_summary` followed by `_ensure_schema`. -/
def loadSummaryDoc (meta : Json) (f : StoredFile) : AList Json :=
  ensureSchema meta (loadExistingSummary meta f)

/-- Saving a document: `json.dump` of the in-memory value; decoding the
written file yields the same document (key order is the dict's). -/
def saveSummaryDoc (doc : AList Json) : StoredFile := .valid doc

/-- The default document of `scripts/mock_keystrokes.py::_default_summary`
(no `word_accuracy` key; `device_meta` is the empty object). -/
def mockDefaultSummaryJson : AList Json :=
  [("total_events", .num 0), ("letters", .num 0), ("actions", .num 0),
   ("words", .num 0), ("rage_clicks", .num 0), ("long_pauses", .num 0),
   ("first_event", .null), ("last_event", .null), ("key_counts", .obj []),
   ("daily_activity", .obj []), ("daily_rage", .obj []),
   ("daily_word_counts", .obj []), ("key_pairs", .obj []),
   ("key_press_lengths", .obj []), ("interval_stats", defaultIntervalStatsJson),
   ("word_durations", .obj []), ("device_meta", .obj []),
   ("word_counts", .obj []), ("word_pairs", .obj []), ("word_shapes", .obj []),
   ("typing_profile", defaultTypingProfileJson)]

/-- Python `{**base, **overlay}`: overlay's values win, overlay's new keys are
appended in order. -/
def mergeDicts (base overlay : AList Json) : AList Json :=
  overlay.foldl (fun d kv => kalSet d kv.1 kv.2) base

/-- Embeds `scripts/mock_keystrokes.py::load_summary`: defaults when the file is
absent, defaults-overlaid-with-file when it decodes — but `json.load` is NOT
guarded, so a corrupt file propagates the decode error to the caller. -/
def mockLoadSummary : StoredFile → Except Unit (AList Json)
  | .absent => .ok mockDefaultSummaryJson
  | .corrupt => .error ()
  | .valid doc =>
      let summary := mergeDicts mockDefaultSummaryJson doc
      let summary := kalSetD summary "typing_profile" defaultTypingProfileJson
      let summary := kalSetD summary "interval_stats" defaultIntervalStatsJson
      let summary := kalSetD summary "key_pairs" (.obj [])
      let summary := kalSetD summary "key_press_lengths" (.obj [])
      .ok summary

/-! ### Sample-mode display adjustments (`scripts/widget_refresh.py`) -/

/-- The widget settings slice `load_widget_settings` returns. -/
structure WidgetSettings where
  sample_total_ratio : ℚ
  sample_avg_interval : ℚ

/-- The summary dict as `apply_sample_adjustments` sees it: the six scalable
counters (present-and-numeric or not) and a reference to the nested
`typing_profile` dict object (`none` when missing or not a dict). -/
structure WSummary where
  total_events : Option ℚ
  letters : Option ℚ
  actions : Option ℚ
  words : Option ℚ
  rage_clicks : Option ℚ
  long_pauses : Option ℚ
  typing_profile : Option ℕ

/-- The heap of dict objects: summary dicts and typing-profile dicts, indexed
by allocation order. Sharing a `typing_profile` index models Python's object
aliasing under the shallow `dict(summary)` copy. -/
structure WidgetStore where
  summaries : List WSummary
  profiles : List (AList ℚ)

/-- Embeds `apply_sample_adjustments`: shallow-copy the summary dict, rescale the
present numeric counters on the copy, build a fresh copy of the
`typing_profile` dict with `avg_interval` overridden, and return the new
object — every write lands on a freshly allocated dict. -/
def applySampleAdjustments (settings : WidgetSettings) (σ : WidgetStore)
    (sref : ℕ) : WidgetStore × ℕ :=
  let summary := σ.summaries.getD sref ⟨none, none, none, none, none, none, none⟩
  let ratio := max 0 (min 1 settings.sample_total_ratio)
  let scale : Option ℚ → Option ℚ := fun v =>
    match v with
    | some x => some ((max 1 (pyRoundInt (x * ratio)) : ℤ) : ℚ)
    | none => none
  let adjusted : WSummary :=
    { summary with
      total_events := scale summary.total_events
      letters := scale summary.letters
      actions := scale summary.actions
      words := scale summary.words
      rage_clicks := scale summary.rage_clicks
      long_pauses := scale summary.long_pauses }
  let tpContents : AList ℚ :=
    match adjusted.typing_profile with
    | some r => σ.profiles.getD r []
    | none => []
  let typing := kalSet tpContents "avg_interval" settings.sample_avg_interval
  let adjusted := { adjusted with typing_profile := some σ.profiles.length }
  (⟨σ.summaries ++ [adjusted], σ.profiles ++ [typing]⟩, σ.summaries.length)

/-! ### Speed-session tracker -/

/-- Modelled from the spec: the speed-session tracker
(`_track_session_interval`, `_score_session_word`, `_commit_speed_session` and
the `speed_points` config/summary records) is exercised by
`src/tests/test_keyboard_logger_word_accuracy.py` but its implementation is
not present under `src/`; the definitions below follow spec §4.4 and the
tests' observable contract. The config holds the thresholds of the
`speed_points` config section. -/
structure SpeedConfig where
  baseline_interval_ms : ℚ
  interval_pct_threshold : ℚ
  accuracy_pct_threshold : ℚ
  session_interval_gap_ms : ℚ
  target_sessions : ℕ

/-- Modelled from the spec: the persisted `speed_points` record (earned
points, sessions observed, last session's average interval and accuracy
percentage, target session count). -/
structure SpeedPoints where
  earned : ℕ
  sessions : ℕ
  last_avg_interval : ℚ
  last_accuracy_pct : ℚ
  target_sessions : ℕ

/-- Modelled from the spec: the in-progress session accumulators — count and
sum of qualifying intervals, and the correct/total word tally observed during
the session. -/
structure SpeedSession where
  interval_count : ℕ
  interval_sum : ℚ
  words_correct : ℕ
  words_total : ℕ
  points : SpeedPoints

/-- The zero-value session state over a fresh `speed_points` record. -/
def SpeedSession.init (cfg : SpeedConfig) : SpeedSession :=
  ⟨0, 0, 0, 0, ⟨0, 0, 0, 0, cfg.target_sessions⟩⟩

/-- Modelled from the spec: `_track_session_interval` — accumulate an interval
into the session when it qualifies, i.e. stays below
`baseline_interval_ms × interval_pct_threshold / 100`. -/
def trackSessionInterval (cfg : SpeedConfig) (st : SpeedSession) (ms : ℚ) :
    SpeedSession :=
  if ms < cfg.baseline_interval_ms * cfg.interval_pct_threshold / 100 then
    { st with interval_count := st.interval_count + 1,
              interval_sum := st.interval_sum + ms }
  else st

/-- Modelled from the spec: `_score_session_word` — tally a word-accuracy
verdict observed during the session. -/
def scoreSessionWord (st : SpeedSession) (correct : Bool) : SpeedSession :=
  { st with words_total := st.words_total + 1,
            words_correct := st.words_correct + (if correct then 1 else 0) }

/-- The committed session's accuracy percentage. -/
def sessionAccuracyPct (st : SpeedSession) : ℚ :=
  if st.words_total ≠ 0 then 100 * st.words_correct / st.words_total else 0

/-- The committed session's average qualifying interval. -/
def sessionAvgInterval (st : SpeedSession) : ℚ :=
  if st.interval_count ≠ 0 then st.interval_sum / st.interval_count else 0

/-- Modelled from the spec: `_commit_speed_session` — `sessions` always
increments by 1; `earned` increments by exactly 1 when the session has a
non-empty set of qualifying intervals and its accuracy percentage reaches
`accuracy_pct_threshold`; the session accumulators reset. -/
def commitSpeedSession (cfg : SpeedConfig) (st : SpeedSession) : SpeedSession :=
  let avg := sessionAvgInterval st
  let acc_pct := sessionAccuracyPct st
  let award : ℕ :=
    if st.interval_count ≠ 0 ∧ cfg.accuracy_pct_threshold ≤ acc_pct then 1 else 0
  { interval_count := 0, interval_sum := 0, words_correct := 0, words_total := 0,
    points :=
      { earned := st.points.earned + award
        sessions := st.points.sessions + 1
        last_avg_interval := avg
        last_accuracy_pct := acc_pct
        target_sessions := cfg.target_sessions } }

/-! ### Concrete press/release scenarios -/

/-- Press a key at time `t` and release it 50 ms later. -/
def pressRelease (cfg : LoggerCfg) (st : LoggerState) (key : KeyInput) (t : ℤ)
    (day : String) : LoggerState :=
  let st := onPress cfg st key ⟨day, t⟩
  onRelease st key ⟨day, t + 50⟩

/-- Run a timed sequence of press/release pairs within one day. -/
def runTyping (cfg : LoggerCfg) (st : LoggerState) (keys : List (KeyInput × ℤ))
    (day : String) : LoggerState :=
  keys.foldl (fun s e => pressRelease cfg s e.1 e.2 day) st

/-- Typing `cat`, pausing 2501 ms, typing `dog`, then pressing space, each key
released 50 ms after its press. -/
def scenarioPause : LoggerState :=
  runTyping {} LoggerState.init
    [(.charKey 'c', 0), (.charKey 'a', 150), (.charKey 't', 300),
     (.charKey 'd', 2801), (.charKey 'o', 2950), (.charKey 'g', 3100),
     (.named "space", 3250)] "2026-01-01"

/-- Typing `cat dog ` with 150 ms gaps throughout, each key released 50 ms
after its press. -/
def scenarioNormal : LoggerState :=
  runTyping {} LoggerState.init
    [(.charKey 'c', 0), (.charKey 'a', 150), (.charKey 't', 300),
     (.named "space", 450), (.charKey 'd', 600), (.charKey 'o', 750),
     (.charKey 'g', 900), (.named "space", 1050)] "2026-01-01"

/-- A fresh logger after a single press of `a` that is never released. -/
def pressOnlyState : LoggerState :=
  onPress {} LoggerState.init (.charKey 'a') ⟨"2026-01-01", 0⟩

/-- A checker configured with `min_word_length = 4` (everything else at the
defaults), so that `"cat"` is shorter than the configured minimum. -/
def minFourChecker : WordChecker := WordChecker.make (5/2) 4 []

/-- One-step application of `_score_word` as folded over a word sequence. -/
def scoreWordStep (cfg : AccuracyCfg) (checker : WordChecker) (oracle : ZipfOracle)
    (acc : WordAccuracy) (w : String) : WordAccuracy :=
  (scoreWordUpdate cfg checker oracle acc w).1

/-- A one-summary, one-profile widget store used to witness the sample-mode
adjustment theorem. -/
def sampleStore : WidgetStore :=
  ⟨[⟨some 100, some 40, some 60, some 10, some 2, some 1, some 0⟩],
   [[("avg_interval", (150 : ℚ))]]⟩

/-- Widget settings at their defaults (`sample_total_ratio 0.05`,
`sample_avg_interval 210`). -/
def sampleSettings : WidgetSettings := ⟨1/20, 210⟩

/-- The speed-session config of the claim's scenario
(`baseline 320`, `interval_pct 90`, `accuracy_pct 80`). -/
def speedTestConfig : SpeedConfig := ⟨320, 90, 80, 5000, 5⟩

/-- Two fast keystrokes (100 ms, 120 ms) and two correctly-scored words,
committed. -/
def speedSessionAllCorrect : SpeedSession :=
  commitSpeedSession speedTestConfig
    (scoreSessionWord
      (scoreSessionWord
        (trackSessionInterval speedTestConfig
          (trackSessionInterval speedTestConfig
            (SpeedSession.init speedTestConfig) 100) 120) true) true)

/-- The same session with one incorrect word among the two, committed. -/
def speedSessionOneWrong : SpeedSession :=
  commitSpeedSession speedTestConfig
    (scoreSessionWord
      (scoreSessionWord
        (trackSessionInterval speedTestConfig
          (trackSessionInterval speedTestConfig
            (SpeedSession.init speedTestConfig) 100) 120) false) true)

/-!
## Theorems

Dict lemmas, then one theorem per claim (with its witness or counterexample).
-/

theorem kalGet_kalSet_self {κ α : Type} [DecidableEq κ] (l : List (κ × α)) (k : κ)
    (v : α) : kalGet (kalSet l k v) k = some v := by
  induction l with
  | nil => simp [kalSet, kalGet]
  | cons hd tl ih =>
      by_cases h : hd.1 = k
      · simp [kalSet, kalGet, h]
      · simpa [kalSet, kalGet, h] using ih

theorem kalGet_kalSet_ne {κ α : Type} [DecidableEq κ] (l : List (κ × α)) (k k' : κ)
    (v : α) (h : k' ≠ k) : kalGet (kalSet l k v) k' = kalGet l k' := by
  have h' : ¬k = k' := fun e => h e.symm
  induction l with
  | nil => simp [kalSet, kalGet, h']
  | cons hd tl ih =>
      by_cases hk : hd.1 = k
      · simp [kalSet, kalGet, hk, h']
      · by_cases hk' : hd.1 = k'
        · simp [kalSet, kalGet, hk, hk', h]
        · simp [kalSet, kalGet, hk, hk', ih]

theorem kalGet_append_left {κ α : Type} [DecidableEq κ] (l l' : List (κ × α)) (k : κ)
    (h : (kalGet l k).isSome) : kalGet (l ++ l') k = kalGet l k := by
  induction l with
  | nil => simp [kalGet] at h
  | cons hd tl ih =>
      by_cases hk : hd.1 = k
      · simp [kalGet, hk]
      · simp only [List.cons_append]
        simp only [kalGet, hk, if_false] at h ⊢
        exact ih h

theorem kalGet_isSome_kalSet {κ α : Type} [DecidableEq κ] (l : List (κ × α))
    (k k' : κ) (v : α) (h : (kalGet l k').isSome) :
    (kalGet (kalSet l k v) k').isSome := by
  by_cases hk : k' = k
  · subst hk; simp [kalGet_kalSet_self]
  · rwa [kalGet_kalSet_ne l k k' v hk]

theorem kalGet_append_pair {κ α : Type} [DecidableEq κ] (l : List (κ × α)) (k : κ)
    (v : α) (h : kalGet l k = none) : kalGet (l ++ [(k, v)]) k = some v := by
  induction l with
  | nil => simp [kalGet]
  | cons hd tl ih =>
      by_cases hk : hd.1 = k
      · simp [kalGet, hk] at h
      · simp only [List.cons_append]
        simp only [kalGet, hk, if_false] at h ⊢
        exact ih h

theorem kalGet_kalSetD_isSome_self {κ α : Type} [DecidableEq κ] (l : List (κ × α))
    (k : κ) (v : α) : (kalGet (kalSetD l k v) k).isSome := by
  unfold kalSetD
  by_cases h : (kalGet l k).isSome
  · simp [h]
  · have hn : kalGet l k = none := Option.not_isSome_iff_eq_none.mp h
    simp only [h, if_false, Bool.false_eq_true]
    rw [kalGet_append_pair l k v hn]
    rfl

theorem kalGet_isSome_kalSetD {κ α : Type} [DecidableEq κ] (l : List (κ × α))
    (k k' : κ) (v : α) (h : (kalGet l k').isSome) :
    (kalGet (kalSetD l k v) k').isSome := by
  unfold kalSetD
  by_cases hs : (kalGet l k).isSome
  · simpa [hs]
  · simp only [hs, if_false, Bool.false_eq_true]
    rw [kalGet_append_left _ _ _ h]
    exact h

theorem kalSetD_eq_of_isSome {κ α : Type} [DecidableEq κ] (l : List (κ × α))
    (k : κ) (v : α) (h : (kalGet l k).isSome) : kalSetD l k v = l := by
  simp [kalSetD, h]

theorem kalSet_kalSet_self {κ α : Type} [DecidableEq κ] (l : List (κ × α)) (k : κ)
    (v w : α) : kalSet (kalSet l k v) k w = kalSet l k w := by
  induction l with
  | nil => simp [kalSet]
  | cons hd tl ih =>
      by_cases hk : hd.1 = k
      · simp [kalSet, hk]
      · simp [kalSet, hk, ih]

/-! ### C10: interval statistics ignore non-positive intervals -/

theorem recordInterval_nonpos (st : IntervalStats) (iv : ℤ) (h : iv ≤ 0) :
    recordInterval st iv = st := by
  simp [recordInterval, h]

theorem foldl_recordInterval_filter (ivs : List ℤ) :
    ∀ st : IntervalStats,
      ivs.foldl recordInterval st =
        (ivs.filter (fun i => decide (0 < i))).foldl recordInterval st := by
  induction ivs with
  | nil => intro st; rfl
  | cons iv rest ih =>
      intro st
      by_cases h : 0 < iv
      · simp only [List.foldl_cons, List.filter_cons]
        simp [h, ih]
      · have hz : recordInterval st iv = st := recordInterval_nonpos st iv (not_lt.mp h)
        simp only [List.foldl_cons, List.filter_cons]
        simp [h, ih, hz]

theorem foldl_recordInterval_min_pos (ivs : List ℤ) :
    ∀ st : IntervalStats,
      (0 < st.count → st.min_ms.isSome) →
      (∀ m, st.min_ms = some m → 0 < m) →
      (0 < (ivs.foldl recordInterval st).count →
          (ivs.foldl recordInterval st).min_ms.isSome) ∧
      (∀ m, (ivs.foldl recordInterval st).min_ms = some m → 0 < m) := by
  induction ivs with
  | nil => intro st h1 h2; exact ⟨h1, h2⟩
  | cons iv rest ih =>
      intro st h1 h2
      simp only [List.foldl_cons]
      by_cases h : iv ≤ 0
      · rw [recordInterval_nonpos st iv h]
        exact ih st h1 h2
      · have hpos : 0 < iv := not_le.mp h
        refine ih _ ?_ ?_
        · intro _
          simp only [recordInterval, if_neg h]
          cases st.min_ms with
          | none => simp
          | some m0 => by_cases hlt : iv < m0 <;> simp [hlt]
        · intro m hm
          cases hs : st.min_ms with
          | none =>
              simp only [recordInterval, if_neg h, hs, Option.some.injEq] at hm
              omega
          | some m0 =>
              simp only [recordInterval, if_neg h, hs] at hm
              by_cases hlt : iv < m0
              · simp only [if_pos hlt, Option.some.injEq] at hm
                omega
              · simp only [if_neg hlt, Option.some.injEq] at hm
                exact hm ▸ h2 m0 hs

/-- C10: recording a non-positive interval (including the first event's zero
interval) leaves `interval_stats` unchanged; hence any update sequence equals
its restriction to strictly positive intervals, and whenever the resulting
count is positive, `min_ms` is some strictly positive value. -/
theorem interval_stats_ignore_nonpositive :
    (∀ (st : IntervalStats) (iv : ℤ), iv ≤ 0 → recordInterval st iv = st) ∧
    (∀ ivs : List ℤ,
      ivs.foldl recordInterval IntervalStats.init =
        (ivs.filter (fun i => decide (0 < i))).foldl recordInterval
          IntervalStats.init) ∧
    (∀ ivs : List ℤ,
      0 < (ivs.foldl recordInterval IntervalStats.init).count →
      ∃ m, (ivs.foldl recordInterval IntervalStats.init).min_ms = some m ∧ 0 < m) := by
  refine ⟨recordInterval_nonpos, fun ivs => foldl_recordInterval_filter ivs _, ?_⟩
  intro ivs hc
  have h := foldl_recordInterval_min_pos ivs IntervalStats.init
    (by intro h0; simp [IntervalStats.init] at h0) (by intro m hm; simp [IntervalStats.init] at hm)
  obtain ⟨h1, h2⟩ := h
  cases hs : (ivs.foldl recordInterval IntervalStats.init).min_ms with
  | none => rw [hs] at h1; simp at h1; omega
  | some m => exact ⟨m, rfl, h2 m hs⟩

theorem interval_stats_ignore_nonpositive_witness :
    recordInterval IntervalStats.init (-5) = IntervalStats.init ∧
    ∃ m, (([0, -5, 120, 80] : List ℤ).foldl recordInterval
        IntervalStats.init).min_ms = some m ∧ 0 < m :=
  ⟨interval_stats_ignore_nonpositive.1 _ _ (by decide),
   interval_stats_ignore_nonpositive.2.2 _ (by decide)⟩

/-! ### C1: score clamping -/

theorem scoreWordUpdate_score_bounds (cfg : AccuracyCfg) (checker : WordChecker)
    (oracle : ZipfOracle) (acc : WordAccuracy) (w : String)
    (h : 0 ≤ cfg.target_score) :
    0 ≤ (scoreWordUpdate cfg checker oracle acc w).1.score ∧
    (scoreWordUpdate cfg checker oracle acc w).1.score ≤ cfg.target_score := by
  by_cases hc : checker.is_correct oracle w <;>
    simp only [scoreWordUpdate, hc, if_true, if_false] <;>
    exact ⟨le_max_left 0 _, max_le h (min_le_right _ _)⟩

theorem foldl_scoreWord_bounds (cfg : AccuracyCfg) (checker : WordChecker)
    (oracle : ZipfOracle) (h : 0 ≤ cfg.target_score) (ws : List String) :
    ∀ acc : WordAccuracy, 0 ≤ acc.score → acc.score ≤ cfg.target_score →
      0 ≤ (ws.foldl (scoreWordStep cfg checker oracle) acc).score ∧
      (ws.foldl (scoreWordStep cfg checker oracle) acc).score ≤ cfg.target_score := by
  induction ws with
  | nil => intro acc h0 h1; exact ⟨h0, h1⟩
  | cons w rest ih =>
      intro acc h0 h1
      simp only [List.foldl_cons]
      have hb := scoreWordUpdate_score_bounds cfg checker oracle acc w h
      exact ih _ hb.1 hb.2

/-- C1 (amended): every `_score_word` update clamps the score into
`[0, target_score]`, so any sequence of logger word-accuracy updates keeps
`word_accuracy.score` in that interval; the mock injector's
`_score_mock_word`, by contrast, adds its points without clamping (see the
counterexample). -/
theorem logger_score_clamped (cfg : AccuracyCfg) (checker : WordChecker)
    (oracle : ZipfOracle) (h : 0 ≤ cfg.target_score) :
    (∀ (acc : WordAccuracy) (w : String),
      0 ≤ (scoreWordUpdate cfg checker oracle acc w).1.score ∧
      (scoreWordUpdate cfg checker oracle acc w).1.score ≤ cfg.target_score) ∧
    (∀ ws : List String,
      0 ≤ (ws.foldl (scoreWordStep cfg checker oracle) WordAccuracy.init).score ∧
      (ws.foldl (scoreWordStep cfg checker oracle) WordAccuracy.init).score ≤
        cfg.target_score) := by
  refine ⟨fun acc w => scoreWordUpdate_score_bounds cfg checker oracle acc w h, ?_⟩
  intro ws
  exact foldl_scoreWord_bounds cfg checker oracle h ws WordAccuracy.init
    le_rfl h

theorem logger_score_clamped_witness :
    0 ≤ (scoreWordUpdate {} defaultChecker none WordAccuracy.init "qqq").1.score ∧
    (scoreWordUpdate {} defaultChecker none WordAccuracy.init "qqq").1.score ≤
      AccuracyCfg.target_score {} :=
  (logger_score_clamped {} defaultChecker none (by norm_num)).1 WordAccuracy.init "qqq"

/-- C1 counterexample: with the default config (`incorrect_points = -2`,
`target_score = 120`) and an absent frequency oracle, one `_score_mock_word`
update for the non-word `zzz` drives the score to `-2`, outside
`[0, target_score]` — the mock update does not clamp. -/
theorem mock_score_escapes_interval :
    (scoreMockWordUpdate {} defaultChecker none WordAccuracy.init
      ["z", "z", "z"]).score = -2 ∧
    ¬0 ≤ (scoreMockWordUpdate {} defaultChecker none WordAccuracy.init
      ["z", "z", "z"]).score := by
  have h : (scoreMockWordUpdate {} defaultChecker none WordAccuracy.init
      ["z", "z", "z"]).score = 0 + (-2 : ℚ) := rfl
  have h2 : (0 : ℚ) + (-2) = -2 := by norm_num
  rw [h, h2]
  refine ⟨rfl, by norm_num⟩

/-! ### C7: words below the configured minimum length -/

/-- C7 (amended): a word shorter than the configured minimum length is judged
not-correct by `WordChecker.is_correct` without consulting the lexicon or the
frequency oracle — but `_score_word` still scores it: the incorrect tally
increments and `incorrect_points` are applied (clamped); only the correct
tally is untouched. -/
theorem short_word_scored_incorrect (cfg : AccuracyCfg) (checker : WordChecker)
    (oracle : ZipfOracle) (acc : WordAccuracy) (w : String)
    (h : (pyStripWs (pyLower w)).length < checker.min_length) :
    checker.is_correct oracle w = false ∧
    (scoreWordUpdate cfg checker oracle acc w).1.correct = acc.correct ∧
    (scoreWordUpdate cfg checker oracle acc w).1.incorrect = acc.incorrect + 1 ∧
    (scoreWordUpdate cfg checker oracle acc w).1.score =
      max 0 (min (acc.score + cfg.incorrect_points) cfg.target_score) := by
  have hic : checker.is_correct oracle w = false := by
    unfold WordChecker.is_correct
    simp [h]
  refine ⟨hic, ?_, ?_, ?_⟩ <;> simp [scoreWordUpdate, hic]

theorem short_word_scored_incorrect_witness :
    (pyStripWs (pyLower "cat")).length < minFourChecker.min_length ∧
    minFourChecker.is_correct none "cat" = false ∧
    (scoreWordUpdate {} minFourChecker none WordAccuracy.init "cat").1.incorrect =
      WordAccuracy.init.incorrect + 1 :=
  ⟨by decide, (short_word_scored_incorrect {} minFourChecker none
      WordAccuracy.init "cat" (by decide)).1,
    (short_word_scored_incorrect {} minFourChecker none
      WordAccuracy.init "cat" (by decide)).2.2.1⟩

/-- C7 counterexample: with `min_word_length = 4` configured, scoring the
too-short word `cat` is not a no-op — the incorrect tally changes from 0
to 1, contradicting "no correct/incorrect tally change, no side effect". -/
theorem short_word_tally_changes :
    (scoreWordUpdate {} minFourChecker none WordAccuracy.init "cat").1.incorrect = 1 ∧
    (scoreWordUpdate {} minFourChecker none WordAccuracy.init "cat").1 ≠
      WordAccuracy.init := by
  refine ⟨rfl, fun he => ?_⟩
  have h1 : (scoreWordUpdate {} minFourChecker none WordAccuracy.init
      "cat").1.incorrect = 1 := rfl
  rw [he] at h1
  exact absurd h1 (by decide)

/-! ### C2: delimiter handling and the long-pause word flush -/

/-- C2 (code bug): `_normalize_key` computes `str(key).strip("Key.")`, which
strips the character set `{K,e,y,.}` from both ends, so `Key.space` becomes
`"spac"` and `Key.enter` becomes `"nter"` — neither matches the delimiter set
`{"space","enter","tab"}`. Hence in the claim's scenarios the space press
never finalizes a word: after `cat`, a >2000 ms pause, `dog`, space, only the
long-pause flush has recorded `cat` (and the pause was counted), `dog` is
still buffered and `word_pairs` is empty; after `cat dog ` with short gaps no
word at all is recorded, contradicting the claim (and the repository's own
`test_score_word_updates_summary`, which presses space and expects the word
to be finalized and scored). -/
theorem space_delimiter_never_finalizes :
    normalizeKey (.named "space") = "spac" ∧
    normalizeKey (.named "enter") = "nter" ∧
    normalizeKey (.named "tab") = "tab" ∧
    scenarioPause.summary.word_counts = [("cat", 1)] ∧
    scenarioPause.summary.long_pauses = 1 ∧
    scenarioPause.summary.word_pairs = [] ∧
    scenarioPause.word_buffer = ["d", "o", "g"] ∧
    scenarioNormal.summary.word_counts = [] ∧
    scenarioNormal.summary.word_pairs = [] ∧
    scenarioNormal.word_buffer = ["c", "a", "t", "d", "o", "g"] :=
  ⟨rfl, rfl, rfl, rfl, rfl, rfl, rfl, rfl, rfl, rfl⟩

/-! ### C5: presses with no matching release -/

theorem refreshTypingProfile_frame (s : Summary) :
    (refreshTypingProfile s).total_events = s.total_events := by
  simp [refreshTypingProfile]

theorem recordTransition_frame (st : LoggerState) (k : String) :
    (recordTransition st k).summary.total_events = st.summary.total_events ∧
    (recordTransition st k).log = st.log ∧
    (recordTransition st k).pending_keys = st.pending_keys := by
  unfold recordTransition
  by_cases h : pyTruthyStr st.last_logged_key <;> simp [h]

theorem recordDuration_frame (s : Summary) (key : String) (od : Option ℤ) :
    (recordDuration s key od).total_events = s.total_events := by
  cases od <;> simp [recordDuration]

theorem recordDuration_first (s : Summary) (key : String) (od : Option ℤ) :
    (recordDuration s key od).first_event = s.first_event := by
  cases od <;> simp [recordDuration]

theorem recordTransition_first (st : LoggerState) (k : String) :
    (recordTransition st k).summary.first_event = st.summary.first_event := by
  unfold recordTransition
  by_cases h : pyTruthyStr st.last_logged_key <;> simp [h]

theorem updateSummary_frame (st : LoggerState) (e : KeyEvent) :
    (updateSummary st e).summary.total_events = st.summary.total_events + 1 ∧
    (updateSummary st e).log = st.log ∧
    (updateSummary st e).pending_keys = st.pending_keys := by
  by_cases h1 : e.category = "letter" <;>
  by_cases h2 : e.behaviors.rage_click <;>
  by_cases h3 : e.behaviors.long_pause <;>
  by_cases h4 : st.summary.first_event.isNone <;>
    refine ⟨?_, ?_, ?_⟩ <;>
    simp [updateSummary, h1, h2, h3, h4, refreshTypingProfile_frame,
      recordDuration_frame, recordDuration_first, recordTransition_first,
      (recordTransition_frame _ _).1,
      (recordTransition_frame _ _).2.1, (recordTransition_frame _ _).2.2]

theorem scoreWord_frame (cfg : LoggerCfg) (st : LoggerState) (w : String) :
    (scoreWord cfg st w).summary.total_events = st.summary.total_events ∧
    (scoreWord cfg st w).log = st.log ∧
    (scoreWord cfg st w).pending_keys = st.pending_keys := by
  simp [scoreWord]

theorem recordWordShape_frame (st : LoggerState) (w : String) :
    (recordWordShape st w).summary.total_events = st.summary.total_events ∧
    (recordWordShape st w).log = st.log ∧
    (recordWordShape st w).pending_keys = st.pending_keys := by
  unfold recordWordShape
  by_cases h : st.current_word_letter_events.isEmpty <;> simp [h]

theorem finishBufferedWord_frame (cfg : LoggerCfg) (st : LoggerState)
    (label : Option String) (sw : Bool) :
    (finishBufferedWord cfg st label sw).summary.total_events =
      st.summary.total_events ∧
    (finishBufferedWord cfg st label sw).log = st.log ∧
    (finishBufferedWord cfg st label sw).pending_keys = st.pending_keys := by
  by_cases hw : String.join st.word_buffer = "" <;>
  by_cases hp : pyTruthyStr st.previous_word <;>
  by_cases hl : pyTruthyStr label <;>
  cases sw <;>
  cases hws : st.word_start <;>
  cases hwl : st.word_last <;>
    refine ⟨?_, ?_, ?_⟩ <;>
    simp [finishBufferedWord, hw, hp, hl, hws, hwl,
      (scoreWord_frame _ _ _).1, (scoreWord_frame _ _ _).2.1,
      (scoreWord_frame _ _ _).2.2, (recordWordShape_frame _ _).1,
      (recordWordShape_frame _ _).2.1, (recordWordShape_frame _ _).2.2,
      scoreWord]

theorem finishWord_frame (cfg : LoggerCfg) (st : LoggerState)
    (day_label : Option String) (rs sw : Bool) :
    (finishWord cfg st day_label rs sw).summary.total_events =
      st.summary.total_events ∧
    (finishWord cfg st day_label rs sw).log = st.log ∧
    (finishWord cfg st day_label rs sw).pending_keys = st.pending_keys := by
  by_cases hb : st.word_buffer = [] <;>
  cases rs <;>
    refine ⟨?_, ?_, ?_⟩ <;>
    simp [finishWord, hb, (finishBufferedWord_frame _ _ _ _).1,
      (finishBufferedWord_frame _ _ _ _).2.1,
      (finishBufferedWord_frame _ _ _ _).2.2]

theorem onRelease_head (st : LoggerState) (k : KeyInput) (r : PendingRecord)
    (rest : List (KeyInput × PendingRecord)) (now : Ts)
    (h : st.pending_keys = (k, r) :: rest) :
    (onRelease st k now).pending_keys = rest ∧
    (onRelease st k now).summary.total_events = st.summary.total_events + 1 ∧
    (onRelease st k now).log.length = st.log.length + 1 := by
  have hk : kalPop st.pending_keys k = some (r, rest) := by
    rw [h]; simp [kalPop]
  unfold onRelease
  rw [hk]
  by_cases hc : r.event.category = "letter" <;>
    refine ⟨?_, ?_, ?_⟩ <;>
    simp [hc, (updateSummary_frame _ _).1, (updateSummary_frame _ _).2.1,
      (updateSummary_frame _ _).2.2]

theorem flushPendingKeys_spec (now : Ts) :
    ∀ (ks : List (KeyInput × PendingRecord)) (st : LoggerState),
      st.pending_keys = ks →
      (flushPendingKeys st now).pending_keys = [] ∧
      (flushPendingKeys st now).summary.total_events =
        st.summary.total_events + ks.length ∧
      (flushPendingKeys st now).log.length = st.log.length + ks.length := by
  intro ks
  induction ks with
  | nil => intro st h; simp [flushPendingKeys, h]
  | cons hd tl ih =>
      obtain ⟨k, r⟩ := hd
      intro st h
      have h1 := onRelease_head st k r tl now h
      have h2 := ih (onRelease st k now) h1.1
      unfold flushPendingKeys at h2 ⊢
      rw [h]
      simp only [List.map_cons, List.foldl_cons]
      rw [h1.1] at h2
      refine ⟨h2.1, ?_, ?_⟩
      · rw [h2.2.1, h1.2.1]; simp [List.length_cons]; omega
      · rw [h2.2.2, h1.2.2]; simp [List.length_cons]; omega

/-- C5 (amended): a key press with no matching release observed before
shutdown is NOT dropped — `stop` first runs `_flush_pending_keys`, which calls
`on_release` for every pending press (synthesizing the release at shutdown
time), so each pending press contributes exactly one entry to the raw event
log and one event to the summary's counters, and the pending table is empty
afterwards. -/
theorem stop_flushes_pending (cfg : LoggerCfg) (st : LoggerState) (now : Ts) :
    (stop cfg st now).pending_keys = [] ∧
    (stop cfg st now).summary.total_events =
      st.summary.total_events + st.pending_keys.length ∧
    (stop cfg st now).log.length = st.log.length + st.pending_keys.length := by
  have hf := flushPendingKeys_spec now st.pending_keys st rfl
  unfold stop
  refine ⟨?_, ?_, ?_⟩ <;>
    simp [(finishWord_frame _ _ _ _ _).1, (finishWord_frame _ _ _ _ _).2.1,
      (finishWord_frame _ _ _ _ _).2.2, refreshTypingProfile_frame,
      hf.1, hf.2.1, hf.2.2]

/-- C5 counterexample: on a fresh logger, press `a` and never release it;
before `stop` nothing was logged or counted, but `stop` finalizes the pending
press — the raw event log gains one entry and `total_events` becomes 1,
contradicting "dropped by the shutdown flush and contributes nothing". -/
theorem unreleased_key_counted_at_stop :
    pressOnlyState.summary.total_events = 0 ∧
    pressOnlyState.log = [] ∧
    (stop {} pressOnlyState ⟨"2026-01-01", 500⟩).summary.total_events = 1 ∧
    (stop {} pressOnlyState ⟨"2026-01-01", 500⟩).log.length = 1 :=
  ⟨rfl, rfl, rfl, rfl⟩

/-! ### C4: atomicity of the durable save -/

theorem kalGet_kalRemove_ne {κ α : Type} [DecidableEq κ] (l : List (κ × α))
    (k k' : κ) (h : k' ≠ k) : kalGet (kalRemove l k) k' = kalGet l k' := by
  induction l with
  | nil => simp [kalRemove, kalPop]
  | cons hd tl ih =>
      by_cases hk : hd.1 = k
      · have h' : ¬hd.1 = k' := by rw [hk]; exact fun e => h e.symm
        have h'' : ¬k = k' := fun e => h e.symm
        simp [kalRemove, kalPop, hk, kalGet, h', h'']
      · simp only [kalRemove, kalPop, hk, if_false]
        cases hp : kalPop tl k with
        | none => rfl
        | some w =>
            simp only []
            rw [kalGet, kalGet]
            by_cases hk' : hd.1 = k'
            · simp [hk']
            · simp only [hk', if_false]
              have := ih
              rw [kalRemove, hp] at this
              exact this

theorem tmpPath_ne (dst : String) : tmpPath dst ≠ dst := by
  intro h
  have hl := congrArg String.length h
  rw [tmpPath, String.length_append] at hl
  have h4 : (".tmp" : String).length = 4 := rfl
  rw [h4] at hl
  omega

/-- C4 (amended): the incremental saves issued by `_persist_summary` are
atomic — writing the temporary sibling, fsyncing and renaming it over the
destination means every crash state shows the destination either with its
previous content or with the complete new content, and the completed sequence
installs the new content. The FINAL save in `stop`, by contrast, writes the
destination directly and is not crash-safe (see the counterexample). -/
theorem persist_summary_atomic (dst content : String) (fs fs' : FileSystem)
    (h : CrashState fs (persistSummaryOps dst content) fs') :
    (kalGet fs' dst = kalGet fs dst ∨ kalGet fs' dst = some content) ∧
    kalGet (runOps fs (persistSummaryOps dst content)) dst = some content := by
  have hne : dst ≠ tmpPath dst := fun e => tmpPath_ne dst e.symm
  have h1 : kalGet (kalSet fs (tmpPath dst) "") dst = kalGet fs dst :=
    kalGet_kalSet_ne _ _ _ _ hne
  have h2 : kalGet (kalSet (kalSet fs (tmpPath dst) "") (tmpPath dst) content) dst
      = kalGet fs dst := by
    rw [kalGet_kalSet_ne _ _ _ _ hne]; exact h1
  have htmp : kalGet (kalSet (kalSet fs (tmpPath dst) "") (tmpPath dst) content)
      (tmpPath dst) = some content := kalGet_kalSet_self _ _ _
  have hfin : kalGet (runOps fs (persistSummaryOps dst content)) dst =
      some content := by
    simp only [runOps, persistSummaryOps, List.foldl_cons, List.foldl_nil, applyOp]
    rw [htmp]
    rw [kalGet_kalRemove_ne _ _ _ hne]
    exact kalGet_kalSet_self _ _ _
  refine ⟨?_, hfin⟩
  cases h with
  | here => exact Or.inl rfl
  | step _ h' =>
      simp only [applyOp] at h'
      cases h' with
      | here => exact Or.inl h1
      | midWrite _ _ _ _ k hk =>
          exact Or.inl (by rw [kalGet_kalSet_ne _ _ _ _ hne]; exact h1)
      | step _ h'' =>
          simp only [applyOp] at h''
          cases h'' with
          | here => exact Or.inl h2
          | step _ h''' =>
              simp only [applyOp] at h'''
              cases h''' with
              | here => exact Or.inl h2
              | step _ h'''' =>
                  simp only [applyOp] at h''''
                  rw [htmp] at h''''
                  cases h'''' with
                  | here =>
                      refine Or.inr ?_
                      rw [kalGet_kalRemove_ne _ _ _ hne]
                      exact kalGet_kalSet_self _ _ _

theorem persist_summary_atomic_witness :
    (kalGet ([("data/summary.json", "old")] : FileSystem) "data/summary.json" =
        kalGet ([("data/summary.json", "old")] : FileSystem) "data/summary.json" ∨
      kalGet ([("data/summary.json", "old")] : FileSystem) "data/summary.json" =
        some "new") ∧
    kalGet (runOps [("data/summary.json", "old")]
      (persistSummaryOps "data/summary.json" "new")) "data/summary.json" =
        some "new" :=
  persist_summary_atomic "data/summary.json" "new" _ _
    (CrashState.here [("data/summary.json", "old")] _)

/-- C4 counterexample: the shutdown save in `stop` opens the destination
itself with mode `"w"`; a crash right after that truncating open leaves the
destination empty — neither the previous document (`"old"`) nor the new one —
so "every save writes to a temporary sibling and a crash mid-write leaves the
previous valid document intact" is false for the `stop` save path. -/
theorem stop_save_truncates_destination :
    CrashState [("data/summary.json", "old")]
      (stopSaveOps "data/summary.json" "new")
      (kalSet [("data/summary.json", "old")] "data/summary.json" "") ∧
    kalGet (kalSet [("data/summary.json", "old")] "data/summary.json" "")
      "data/summary.json" = some "" ∧
    kalGet ([("data/summary.json", "old")] : FileSystem) "data/summary.json" =
      some "old" :=
  ⟨CrashState.step _ (CrashState.here _ _), rfl, rfl⟩

/-! ### C6: load paths of the durable store -/

/-- C6 (amended): the logger's `_load_existing_summary` never propagates an
error — it returns the built-in zero-value default document when the file is
absent or holds corrupt JSON, and the decoded document otherwise; the mock
injector's `load_summary`, however, guards only the absent case: a corrupt
file propagates the JSON decode error to its caller. -/
theorem load_summary_defaults :
    (∀ meta : Json,
      loadExistingSummary meta .absent = loggerDefaultSummaryJson meta) ∧
    (∀ meta : Json,
      loadExistingSummary meta .corrupt = loggerDefaultSummaryJson meta) ∧
    (∀ (meta : Json) (doc : AList Json),
      loadExistingSummary meta (.valid doc) = doc) ∧
    (∀ meta : Json,
      kalGet (loadExistingSummary meta .corrupt) "total_events" = some (.num 0)) ∧
    mockLoadSummary .absent = .ok mockDefaultSummaryJson ∧
    mockLoadSummary .corrupt = .error () :=
  ⟨fun _ => rfl, fun _ => rfl, fun _ _ => rfl, fun _ => rfl, rfl, rfl⟩

/-- C6 counterexample: the mock injector's `load_summary` applied to an
existing file with corrupt JSON raises (`json.load` is unguarded there) —
refuting "never raises an exception to the caller, for every load path of the
store". -/
theorem mock_load_corrupt_errors :
    mockLoadSummary .corrupt = .error () ∧
    ∀ doc : AList Json, mockLoadSummary .corrupt ≠ .ok doc :=
  ⟨rfl, fun _ h => Except.noConfusion h⟩

/-! ### C8: load–save–reload round trip -/

theorem foldl_kalSetD_isSome {κ α : Type} [DecidableEq κ] (ds : List (κ × α)) :
    ∀ (doc : List (κ × α)) (k : κ), (kalGet doc k).isSome →
      (kalGet (ds.foldl (fun d kv => kalSetD d kv.1 kv.2) doc) k).isSome := by
  induction ds with
  | nil => intro doc k h; exact h
  | cons hd tl ih =>
      intro doc k h
      exact ih _ _ (kalGet_isSome_kalSetD _ _ _ _ h)

theorem foldl_kalSetD_mem {κ α : Type} [DecidableEq κ] (ds : List (κ × α)) :
    ∀ (doc : List (κ × α)) (kv : κ × α), kv ∈ ds →
      (kalGet (ds.foldl (fun d kv => kalSetD d kv.1 kv.2) doc) kv.1).isSome := by
  induction ds with
  | nil => intro doc kv h; cases h
  | cons hd tl ih =>
      intro doc kv hmem
      simp only [List.foldl_cons]
      rcases List.mem_cons.mp hmem with h | h
      · subst h
        exact foldl_kalSetD_isSome tl _ _ (kalGet_kalSetD_isSome_self _ _ _)
      · exact ih _ kv h

theorem foldl_kalSetD_id {κ α : Type} [DecidableEq κ] (ds : List (κ × α)) :
    ∀ doc : List (κ × α), (∀ kv ∈ ds, (kalGet doc kv.1).isSome) →
      ds.foldl (fun d kv => kalSetD d kv.1 kv.2) doc = doc := by
  induction ds with
  | nil => intro doc _; rfl
  | cons hd tl ih =>
      intro doc h
      simp only [List.foldl_cons]
      rw [kalSetD_eq_of_isSome _ _ _ (h hd (List.mem_cons_self hd tl))]
      exact ih doc (fun kv hkv => h kv (List.mem_cons_of_mem hd hkv))

theorem ensureSchema_idem (meta : Json) (doc : AList Json) :
    ensureSchema meta (ensureSchema meta doc) = ensureSchema meta doc := by
  unfold ensureSchema
  have hpres : ∀ kv ∈ ensureSchemaDefaults,
      (kalGet (kalSet
        (ensureSchemaDefaults.foldl (fun d kv => kalSetD d kv.1 kv.2) doc)
        "device_meta" meta) kv.1).isSome := by
    intro kv hkv
    exact kalGet_isSome_kalSet _ _ _ _ (foldl_kalSetD_mem _ _ _ hkv)
  rw [foldl_kalSetD_id _ _ hpres, kalSet_kalSet_self]

/-- C8: loading a persisted summary document, saving it unchanged, and
reloading yields the same logical document — the load path is
`_load_existing_summary` followed by `_ensure_schema`, the save stores the
in-memory document, and `_ensure_schema` is idempotent, so
`load ∘ save ∘ load = load` on every stored file state. -/
theorem load_save_reload_id (meta : Json) (f : StoredFile) :
    loadSummaryDoc meta (saveSummaryDoc (loadSummaryDoc meta f)) =
      loadSummaryDoc meta f :=
  ensureSchema_idem meta (loadExistingSummary meta f)

/-! ### C9: sample-mode adjustments do not mutate the summary -/

/-- C9: `apply_sample_adjustments` allocates a fresh summary dict and a fresh
typing-profile dict and writes only to those: every previously allocated
object in the store is unchanged (so the input summary and its nested typing
profile are intact), and the returned reference is the fresh one, distinct
from any valid input reference. -/
theorem apply_sample_adjustments_pure (settings : WidgetSettings)
    (σ : WidgetStore) (sref : ℕ) :
    (applySampleAdjustments settings σ sref).1.summaries.take σ.summaries.length
      = σ.summaries ∧
    (applySampleAdjustments settings σ sref).1.profiles.take σ.profiles.length
      = σ.profiles ∧
    (applySampleAdjustments settings σ sref).2 = σ.summaries.length ∧
    (sref < σ.summaries.length →
      (applySampleAdjustments settings σ sref).2 ≠ sref ∧
      (applySampleAdjustments settings σ sref).1.summaries.get? sref =
        σ.summaries.get? sref) := by
  refine ⟨?_, ?_, rfl, fun h => ⟨?_, ?_⟩⟩
  · simp [applySampleAdjustments, List.take_left]
  · simp [applySampleAdjustments, List.take_left]
  · simp only [applySampleAdjustments]
    omega
  · simp only [applySampleAdjustments]
    simp [List.getElem?_append, h]

theorem apply_sample_adjustments_pure_witness :
    (applySampleAdjustments sampleSettings sampleStore 0).2 ≠ 0 ∧
    (applySampleAdjustments sampleSettings sampleStore 0).1.summaries.get? 0 =
      sampleStore.summaries.get? 0 :=
  (apply_sample_adjustments_pure sampleSettings sampleStore 0).2.2.2 (by decide)

/-! ### C3: speed-session commit gating -/

/-- C3 (spec-modelled): on every commit, `sessions` increments by exactly 1;
`earned` increments by exactly 1 — never more — precisely when the session has
a non-empty set of qualifying intervals and its accuracy percentage reaches
`accuracy_pct_threshold`; `last_avg_interval`/`last_accuracy_pct` record the
committed session's averages. With the claim's config (baseline 320, interval
pct 90, accuracy pct 80), two fast keystrokes and two correct words earn a
point with accuracy percentage 100 and average interval 110; with one
incorrect word among the two, the accuracy percentage is 50 and no point is
earned. -/
theorem speed_session_commit_gating :
    (∀ (cfg : SpeedConfig) (st : SpeedSession),
      (commitSpeedSession cfg st).points.sessions = st.points.sessions + 1) ∧
    (∀ (cfg : SpeedConfig) (st : SpeedSession),
      (commitSpeedSession cfg st).points.earned =
        st.points.earned +
          (if st.interval_count ≠ 0 ∧
              cfg.accuracy_pct_threshold ≤ sessionAccuracyPct st then 1 else 0)) ∧
    (∀ (cfg : SpeedConfig) (st : SpeedSession),
      (commitSpeedSession cfg st).points.last_avg_interval =
        sessionAvgInterval st ∧
      (commitSpeedSession cfg st).points.last_accuracy_pct =
        sessionAccuracyPct st) ∧
    (speedSessionAllCorrect.points.earned = 1 ∧
      speedSessionAllCorrect.points.sessions = 1 ∧
      speedSessionAllCorrect.points.target_sessions = 5 ∧
      speedSessionAllCorrect.points.last_accuracy_pct = 100 ∧
      speedSessionAllCorrect.points.last_avg_interval = 110) ∧
    (speedSessionOneWrong.points.earned = 0 ∧
      speedSessionOneWrong.points.sessions = 1 ∧
      speedSessionOneWrong.points.last_accuracy_pct = 50) := by
  refine ⟨fun cfg st => rfl, fun cfg st => rfl, fun cfg st => ⟨rfl, rfl⟩, ?_, ?_⟩ <;>
    norm_num [speedSessionAllCorrect, speedSessionOneWrong, speedTestConfig,
      SpeedSession.init, trackSessionInterval, scoreSessionWord,
      commitSpeedSession, sessionAvgInterval, sessionAccuracyPct]

end KeyboardWrapped
